import Mathlib

/-!
Verification development for a two-script crawler/downloader:

* `collect_all_list_items.py` — drives a browser over a paginated listing,
  extracts `(title, detail_url)` pairs from each page, merges them into a
  deduplicated accumulator keyed by detail URL, and stops either at an
  iteration ceiling or after three consecutive pages with no new records.

* `download_templates.py` — for each collected record, extracts a resource id
  from the detail URL, fetches `api/File/DownTemplate?id=..&type=..` for each
  desired type (pdf/word) with retries and linear backoff, classifies the
  response (status, content type, content disposition; the PDF-signature peek
  raises on the non-seekable stream and falls into the retry path), and
  saves accepted payloads atomically (write `.part` sibling, then rename).

The definitions below are a shallow embedding of those scripts: network
responses become an explicit function from (type code, attempt index) to a
response value, the filesystem becomes an explicit `String → Option (List
UInt8)` map, sleeps become a list of recorded delays, and the browser page
fetches become a function from page number to a fetch outcome.
-/

namespace Crawl

/-! ### Shared string helpers (Python stdlib behaviours used by the scripts) -/

/-- Worker for `pySplit`, structurally recursive on a character budget so
that the kernel can evaluate it: scan the input, emitting a chunk whenever
the (nonempty) separator is a prefix of the remainder. -/
def pySplitAux (sep : List Char) : Nat → List Char → List Char → List (List Char)
  | _, [], acc => [acc.reverse]
  | 0, l, acc => [acc.reverse ++ l]
  | fuel + 1, c :: rest, acc =>
    if sep.isPrefixOf (c :: rest) then
      acc.reverse :: pySplitAux sep fuel ((c :: rest).drop sep.length) []
    else pySplitAux sep fuel rest (c :: acc)

/-- Python `s.split(sep)` for a nonempty separator: non-overlapping
left-to-right splitting, keeping empty chunks (so the result always has one
more element than there are separator occurrences). -/
def pySplit (s sep : String) : List String :=
  if sep = "" then [s]
  else (pySplitAux sep.data s.data.length s.data []).map String.mk

/-- The Python `pat in s` substring test (`"x" in ""` is `False`, `"" in s` is
`True`). -/
def strContains (s pat : String) : Bool :=
  if pat = "" then true else (pySplit s pat).length != 1

/-- Join chunks with a separator (inverse of `pySplit`), structurally
recursive. -/
def strJoin (sep : String) : List String → String
  | [] => ""
  | [x] => x
  | x :: xs => x ++ sep ++ strJoin sep xs

/-- Python `str.lower` for the ASCII range (`Char.toLower`); the content
types this endpoint emits are ASCII. -/
def pyLower (s : String) : String :=
  String.mk (s.data.map Char.toLower)

/-- Python `s.startswith(pre)`. -/
def pyStartsWith (s pre : String) : Bool :=
  List.isPrefixOf pre.data s.data

/-- Python `str.strip` over space and double quote: remove both from both
ends, as used on content-disposition filenames. -/
def pyStrip (s : String) : String :=
  let p := fun (c : Char) => c == ' ' || c == '"'
  String.mk (((s.data.dropWhile p).reverse.dropWhile p).reverse)

/-- Index of the last occurrence of `c` in `l`, if any. -/
def lastIdxOf (l : List Char) (c : Char) : Option Nat :=
  match l.reverse.findIdx? (fun x => x == c) with
  | some i => some (l.length - 1 - i)
  | none => none

/-- `os.path.splitext` (posix): split at the last `.` that comes after the
last `/` and is preceded by at least one non-dot character of the basename;
otherwise the extension is empty (so `".pdf"` has extension `""`). -/
def splitext (p : String) : String × String :=
  let l := p.data
  match lastIdxOf l '.' with
  | none => (p, "")
  | some di =>
    match lastIdxOf l '/' with
    | none =>
      if (l.take di).any (fun x => x != '.') then
        (String.mk (l.take di), String.mk (l.drop di))
      else (p, "")
    | some si =>
      if si < di then
        if ((l.drop (si + 1)).take (di - (si + 1))).any (fun x => x != '.') then
          (String.mk (l.take di), String.mk (l.drop di))
        else (p, "")
      else (p, "")

/-- `safe_filename` from `download_templates.py`: keep alphanumerics and
`" ._-()"`, replace everything else by `_`, truncate to 180 characters.
(`Char.isAlphanum` covers the ASCII range; Python `str.isalnum` also
accepts other Unicode letters — the claims below do not depend on which
characters are kept, and the witnesses use ASCII titles.) -/
def safe_filename (s : String) : String :=
  String.mk ((s.data.map (fun c =>
    if c.isAlphanum || c == ' ' || c == '.' || c == '_' || c == '-' ||
        c == '(' || c == ')' then c else '_')).take 180)

/-- The query component `urllib.parse.urlparse(url).query`: the part of the
URL after the first `?`, with any `#fragment` removed first. -/
def urlparse_query (url : String) : String :=
  let beforeFrag := (pySplit url "#").headD ""
  match pySplit beforeFrag "?" with
  | [] => ""
  | [_] => ""
  | _ :: rest => strJoin "?" rest

/-- `urllib.parse.parse_qs(query).get(key, [None])[0]` with default settings:
split the query on `&`, keep only `k=v` chunks with a nonempty value, and
return the first value bound to `key`.  Percent-decoding (`unquote_plus`) is
omitted: it is the identity on the plain alphanumeric ids this endpoint
uses. -/
def parse_qs_first (query key : String) : Option String :=
  let pairs := (pySplit query "&").filterMap (fun part =>
    if part = "" then none
    else
      match pySplit part "=" with
      | [] => none
      | [_] => none
      | k :: rest =>
        let v := strJoin "=" rest
        if v = "" then none else some (k, v))
  (pairs.find? (fun kv => kv.1 == key)).map (fun kv => kv.2)

/-- Resource-id extraction from `download_one` (lines 58–70): first parse the
query string of the URL for an `id` parameter; failing that, if the literal
substring `id=` occurs, take what follows the last occurrence up to the next
`&`.  An empty candidate is falsy in Python, hence `none`. -/
def extract_uid (durl : String) : Option String :=
  match parse_qs_first (urlparse_query durl) "id" with
  | some v => some v
  | none =>
    if strContains durl "id=" then
      let cand := (pySplit ((pySplit durl "id=").getLastD "") "&").headD ""
      if cand = "" then none else some cand
    else none

/-- The Python `a or b or ...` chain over optional CSV fields, as used for the
`if not x` checks: the first value that is neither `None` nor `""`. -/
def py_first_truthy : List (Option String) → Option String
  | [] => none
  | none :: rest => py_first_truthy rest
  | some s :: rest => if s = "" then py_first_truthy rest else some s

/-! ### Collector model (`collect_all_list_items.py`) -/

/-- One collected record: `{"section": ..., "title": t, "detail_url": u}`. -/
structure ItemRec where
  sec : String
  title : String
  detail_url : String
deriving DecidableEq, Repr

/-- Lookup in the `all_items` dict, modelled as an insertion-ordered
association list keyed by detail URL. -/
def dict_lookup : List (String × ItemRec) → String → Option ItemRec
  | [], _ => none
  | (k, v) :: rest, u => if k = u then some v else dict_lookup rest u

/-- Python dict assignment `all_items[u] = r`: overwrite in place if the key
exists, else append. -/
def dict_assign (acc : List (String × ItemRec)) (u : String) (r : ItemRec) :
    List (String × ItemRec) :=
  if (dict_lookup acc u).isSome then
    acc.map (fun p => if p.1 = u then (u, r) else p)
  else acc ++ [(u, r)]

/-- Seeding from the first page (lines 148–153): unconditional dict
assignment for every extracted pair. -/
def seed_items (sec : String) (items : List (String × String)) :
    List (String × ItemRec) :=
  items.foldl (fun acc tu => dict_assign acc tu.2 ⟨sec, tu.1, tu.2⟩) []

/-- The per-page merge (lines 200–204): for each `(title, url)` pair, insert
only if the URL is not already a key; the second component counts the
insertions (`new_count`). -/
def merge_items (sec : String) :
    List (String × String) → List (String × ItemRec) →
    List (String × ItemRec) × Nat
  | [], acc => (acc, 0)
  | (t, u) :: rest, acc =>
    if (dict_lookup acc u).isSome then merge_items sec rest acc
    else
      let r := merge_items sec rest (acc ++ [(u, ⟨sec, t, u⟩)])
      (r.1, r.2 + 1)

def BASE : String := "https://htsfwb.samr.gov.cn"

/-- `urllib.parse.urljoin(BASE, href)` for the href shapes this site emits:
absolute URLs are kept, root-relative and bare paths are resolved against
the portal origin. -/
def urljoin_base (href : String) : String :=
  if strContains href "://" then href
  else if pyStartsWith href "/" then BASE ++ href
  else BASE ++ "/" ++ href

/-- `extract_items_from_html` (lines 45–54), with the page modelled as its
list of anchors `(href, text)`: keep anchors whose href contains
`/View?id=`, producing `(title, absolute url)` pairs. -/
def extract_items (anchors : List (String × String)) :
    List (String × String) :=
  anchors.filterMap (fun a =>
    if strContains a.1 "/View?id=" then some (a.2, urljoin_base a.1) else none)

/-- Outcome of one `click_page_and_collect` call plus, on a click failure,
the next-button fallback of lines 184–195: a successful click with extracted
items, a successful fallback with extracted items, or a hard abort. -/
inductive PageFetch
  | ok (items : List (String × String))
  | fallbackOk (items : List (String × String))
  | abort
deriving Repr

/-- Why the traversal loop ended: three consecutive no-growth pages, a
navigation failure (both the numbered control and the next button), or the
iteration ceiling. -/
inductive StopReason
  | noGrowth
  | navAbort
  | ceiling
deriving DecidableEq, Repr

/-- Bookkeeping recorded for one executed loop iteration. -/
structure StepInfo where
  page : Nat
  newCount : Nat
  consecAfter : Nat
deriving DecidableEq, Repr

structure TravResult where
  acc : List (String × ItemRec)
  trace : List StepInfo
  requested : List Nat
  stop : StopReason
deriving Repr

/-- Ceiling selection (line 175):
`max_try = total_pages if (total_pages and total_pages>1) else args.max_pages`
(`0` is falsy in Python, and `1 < n` already excludes it). -/
def iter_ceiling : Option Nat → Nat → Nat
  | some n, cap => if 1 < n then n else cap
  | none, cap => cap

/-- Lines 181–197: a successful click and a successful next-button fallback
both deliver the extracted items of the reached page; only the double
failure delivers nothing and aborts. -/
def fetch_items : PageFetch → Option (List (String × String))
  | .ok items => some items
  | .fallbackOk items => some items
  | .abort => none

/-- The `while current <= max_try` loop of lines 179–223, recursing on the
remaining number of iterations.  The `consec_no_new` counter is created on
first use in the source (the `consec_no_new not in locals` check), which is
equivalent to starting it at 0 before the loop. -/
def traverse_aux (sec : String) (fetch : Nat → PageFetch) :
    Nat → Nat → List (String × ItemRec) → Nat → TravResult
  | 0, _, acc, _ => ⟨acc, [], [], .ceiling⟩
  | fuel + 1, current, acc, consec =>
    match fetch_items (fetch current) with
    | none => ⟨acc, [], [current], .navAbort⟩
    | some items =>
      let m := merge_items sec items acc
      let consec2 := if m.2 = 0 then consec + 1 else 0
      let step : StepInfo := ⟨current, m.2, consec2⟩
      if 3 ≤ consec2 then ⟨m.1, [step], [current], .noGrowth⟩
      else
        let r := traverse_aux sec fetch fuel (current + 1) m.1 consec2
        ⟨r.acc, step :: r.trace, current :: r.requested, r.stop⟩

/-- Pages run from 2 up to `maxTry` inclusive, so the loop body executes at
most `maxTry - 1` times. -/
def traverse (sec : String) (fetch : Nat → PageFetch)
    (acc : List (String × ItemRec)) (maxTry : Nat) : TravResult :=
  traverse_aux sec fetch (maxTry - 1) 2 acc 0

/-- The crawling part of `main`: seed from the first page, pick the ceiling
from the page-count hint (default cap 999 comes from `--max-pages`), then
loop from page 2. -/
def main_collect (sec : String) (fetch : Nat → PageFetch)
    (items0 : List (String × String)) (total_pages : Option Nat) (cap : Nat) :
    TravResult :=
  traverse sec fetch (seed_items sec items0) (iter_ceiling total_pages cap)

/-- The growth-bookkeeping law of lines 212–217, as a checkable predicate on
a trace: starting from counter value `c`, the recorded counter of each step is
the previous counter plus one on a zero-new step and 0 otherwise. -/
def counterLawB : Nat → List StepInfo → Bool
  | _, [] => true
  | c, s :: rest =>
    (s.consecAfter == (if s.newCount = 0 then c + 1 else 0)) &&
      counterLawB s.consecAfter rest

/-! ### Downloader model (`download_templates.py`) -/

/-- An HTTP response as `download_one` observes it: status code, the
(possibly absent, hence `""`) `Content-Type` and `Content-Disposition`
headers, and the body bytes.  The body is a plain forward stream: the
source is called with `stream=True`, so `r.raw` is the live urllib3
`HTTPResponse`, an `io.IOBase` subclass that defines no `seek`. -/
structure HResponse where
  status : Nat
  contentType : String
  contentDisposition : String
  body : List UInt8
deriving DecidableEq, Repr

/-- The verdict of the classifier for one attempt.  `seekError` is the
`io.UnsupportedOperation` raised by `r.raw.seek(0)` at line 118, which the
`except Exception` handler at line 157 turns into a retried attempt;
`notBinary` models the `not_binary_content` path of lines 121–134, which is
unreachable because the only route that leaves `ext` unset raises first. -/
inductive Classified
  | badStatus (code : Nat)
  | accept (ext : String)
  | seekError
  | notBinary
deriving DecidableEq, Repr

/-- The PDF signature bytes (percent, P, D, F) of the `startswith` test at
line 119 — dead code in the source, see `classify`. -/
def pdfMagic : List UInt8 := [37, 80, 68, 70]

/-- Response classification, lines 84–134, in source order: non-200 status;
`pdf` in the lowercased content type; Word content types (modern `.docx`
vs legacy `.doc`); a `filename=` in the content disposition (extension from
`splitext`, defaulting to `.bin`).  Otherwise the source peeks
`head = r.raw.read(8)` and then calls `r.raw.seek(0)` (line 118): urllib3
streams are not seekable (`io.IOBase` raises `io.UnsupportedOperation`),
so this branch raises for every body — before the `head.startswith(b..)`
signature test at line 119 — and the `not_binary_content` classification of
lines 121–134 is unreachable as well. -/
def classify (r : HResponse) : Classified :=
  let ctype := pyLower r.contentType
  if r.status ≠ 200 then .badStatus r.status
  else if strContains ctype "pdf" then .accept ".pdf"
  else if strContains ctype "officedocument.wordprocessingml.document" ||
      strContains ctype "word" || strContains ctype "msword" then
    if strContains ctype "officedocument.wordprocessingml.document" then
      .accept ".docx"
    else .accept ".doc"
  else if strContains r.contentDisposition "filename=" then
    let fname := pyStrip ((pySplit r.contentDisposition "filename=").getLastD "")
    let e := (splitext fname).2
    .accept (if e = "" then ".bin" else e)
  else .seekError

/-- The filesystem, as a map from path to file bytes. -/
def FsT : Type := String → Option (List UInt8)

def fs_empty : FsT := fun _ => none

def fs_set (fs : FsT) (p : String) (c : List UInt8) : FsT :=
  fun q => if q = p then some c else fs q

def fs_del (fs : FsT) (p : String) : FsT :=
  fun q => if q = p then none else fs q

/-- `os.path.exists`. -/
def fs_exists (fs : FsT) (p : String) : Bool := (fs p).isSome

/-- The filesystem operations the save path performs. -/
inductive FsOp
  | write (p : String) (c : List UInt8)
  | rename (src dst : String)

/-- `open(p,"wb").write(c)` and `os.replace(src, dst)` (rename is atomic and
overwrites its destination). -/
def apply_op (fs : FsT) : FsOp → FsT
  | .write p c => fs_set fs p c
  | .rename s d =>
    match fs s with
    | some c => fs_set (fs_del fs s) d c
    | none => fs

def apply_ops (fs : FsT) (ops : List FsOp) : FsT := ops.foldl apply_op fs

/-- Lines 149–153: stream the payload into `outpath + ".part"`, then
`os.replace` it onto `outpath`. -/
def save_ops (outpath : String) (body : List UInt8) : List FsOp :=
  [.write (outpath ++ ".part") body, .rename (outpath ++ ".part") outpath]

def atomic_save (fs : FsT) (outpath : String) (body : List UInt8) : FsT :=
  apply_ops fs (save_ops outpath body)

/-- Execution of an operation list cut short at operation `k`: earlier
operations complete, operation `k` — if it is a write — lands only a prefix
of its bytes (`keep` of them), a rename interrupted mid-call simply does not
happen (it is atomic), and nothing after `k` runs. -/
def run_interruptedAt (fs : FsT) (ops : List FsOp) (k keep : Nat) : FsT :=
  let done := apply_ops fs (ops.take k)
  match ops[k]? with
  | some (.write p c) => fs_set done p (c.take keep)
  | _ => done

/-- Output-path resolution of lines 136–146: `save_dir/safeTitle+ext`, and
if that exists, append `_uid` before the extension (`splitext` computed on
the filename, exactly as the source does). -/
def resolve_outpath (fs : FsT) (save_dir stitle ext uid : String) : String :=
  let filename := stitle ++ ext
  let outpath := save_dir ++ "/" ++ filename
  if fs_exists fs outpath then
    let se := splitext filename
    save_dir ++ "/" ++ se.1 ++ "_" ++ uid ++ se.2
  else outpath

def download_api (uid : String) (tnum : Nat) : String :=
  BASE ++ "/api/File/DownTemplate?id=" ++ uid ++ "&type=" ++ toString tnum

/-- Result of the attempt loop for a single desired type: the filesystem
afterwards, the recorded sleeps and request URLs of this loop, the saved
path on acceptance, and the final `last_err`. -/
structure AttemptOut where
  fs : FsT
  sleeps : List ℚ
  reqs : List String
  savedPath : Option String
  lastErr : Option String

/-- The `for attempt in range(retries+1)` loop of lines 81–160 for one type
code, recursing on the remaining attempts.  A non-200 status stores a debug
page and sleeps `1 + attempt*1.5`; the `io.UnsupportedOperation` raised by
the signature-branch `seek` lands in the `except` handler of lines 157–160,
which sets `last_err = str(e)` (the message is `"seek"`), sleeps the same
backoff, and retries without writing a debug page; an unrecognized body
(unreachable, kept for fidelity to lines 121–134) stores a debug page and
sleeps likewise; an accepted response resolves the output path against the
current filesystem and saves atomically, ending the loop. -/
def run_attempts (resp : Nat → Nat → HResponse)
    (outdir sec title uid : String) (tnum : Nat) :
    Nat → Nat → FsT → Option String → AttemptOut
  | _, 0, fs, lastErr => ⟨fs, [], [], none, lastErr⟩
  | attempt, rem + 1, fs, lastErr =>
    let url := download_api uid tnum
    let r := resp tnum attempt
    match classify r with
    | .badStatus code =>
      let dbg := outdir ++ "/debug_html/" ++ uid ++ "_" ++ toString tnum ++
        "_status" ++ toString code ++ ".html"
      let fs1 := fs_set fs dbg r.body
      let rest := run_attempts resp outdir sec title uid tnum (attempt + 1)
        rem fs1 (some ("status " ++ toString code))
      ⟨rest.fs, (1 + (attempt : ℚ) * (3 / 2)) :: rest.sleeps, url :: rest.reqs,
        rest.savedPath, rest.lastErr⟩
    | .seekError =>
      let rest := run_attempts resp outdir sec title uid tnum (attempt + 1)
        rem fs (some "seek")
      ⟨rest.fs, (1 + (attempt : ℚ) * (3 / 2)) :: rest.sleeps, url :: rest.reqs,
        rest.savedPath, rest.lastErr⟩
    | .notBinary =>
      let dbg := outdir ++ "/debug_html/" ++ uid ++ "_" ++ toString tnum ++
        "_notbinary.html"
      let fs1 := fs_set fs dbg r.body
      let rest := run_attempts resp outdir sec title uid tnum (attempt + 1)
        rem fs1 (some "not_binary_content")
      ⟨rest.fs, (1 + (attempt : ℚ) * (3 / 2)) :: rest.sleeps, url :: rest.reqs,
        rest.savedPath, rest.lastErr⟩
    | .accept ext =>
      let outpath := resolve_outpath fs (outdir ++ "/" ++ sec)
        (safe_filename title) ext uid
      let fs1 := atomic_save fs outpath r.body
      ⟨fs1, [], [url], some outpath, lastErr⟩

/-- Overall outcome: the Python `(False, "reason")` or `(True, [paths])` pair. -/
inductive DlInfo
  | err (s : String)
  | savedPaths (ps : List String)
deriving DecidableEq, Repr

structure DlResult where
  ok : Bool
  info : DlInfo
  fs : FsT
  sleeps : List ℚ
  reqs : List String
  saved : List String

/-- The `for t in types` loop of lines 73–164: run the attempt loop for each
desired type in order; on a type whose attempts are exhausted without a
save, return `(False, "fail_<t>:<last_err>")` immediately; after the list is
done, return `(True, saved)`. -/
def types_loop (resp : Nat → Nat → HResponse)
    (outdir sec title uid : String) (retries : Nat) :
    List String → FsT → List ℚ → List String → List String → DlResult
  | [], fs, sleeps, reqs, saved => ⟨true, .savedPaths saved, fs, sleeps, reqs, saved⟩
  | t :: rest, fs, sleeps, reqs, saved =>
    let tnum := if pyLower t = "pdf" then 2 else 1
    let a := run_attempts resp outdir sec title uid tnum 0 (retries + 1) fs none
    match a.savedPath with
    | some p =>
      types_loop resp outdir sec title uid retries rest a.fs
        (sleeps ++ a.sleeps) (reqs ++ a.reqs) (saved ++ [p])
    | none =>
      ⟨false, .err ("fail_" ++ t ++ ":" ++ a.lastErr.getD "None"), a.fs,
        sleeps ++ a.sleeps, reqs ++ a.reqs, saved⟩

/-- A CSV row as `download_one` reads it; `sec` models the `section`
column. -/
structure Entry where
  detail_url : Option String
  file_url : Option String
  detail : Option String
  title : Option String
  name : Option String
  sec : Option String
deriving DecidableEq, Repr

/-- `download_one` (lines 46–164): resolve the detail URL fields (fail fast
with `no_detail_url`), extract the resource id (fail fast with `no_id`), and
only then enter the per-type download loop. -/
def download_one (resp : Nat → Nat → HResponse) (entry : Entry)
    (outdir : String) (types : List String) (retries : Nat) (fs0 : FsT) :
    DlResult :=
  match py_first_truthy [entry.detail_url, entry.file_url, entry.detail] with
  | none => ⟨false, .err "no_detail_url", fs0, [], [], []⟩
  | some durl =>
    let title := (py_first_truthy [entry.title, entry.name]).getD "item"
    let sec := (py_first_truthy [entry.sec]).getD "unknown"
    match extract_uid durl with
    | none => ⟨false, .err "no_id", fs0, [], [], []⟩
    | some uid => types_loop resp outdir sec title uid retries types fs0 [] [] []

/-! ### Lemmas about the accumulator merge -/

theorem dict_lookup_append_left {l1 l2 : List (String × ItemRec)} {u : String}
    {r : ItemRec} (h : dict_lookup l1 u = some r) :
    dict_lookup (l1 ++ l2) u = some r := by
  induction l1 with
  | nil => simp [dict_lookup] at h
  | cons p rest ih =>
    obtain ⟨k, v⟩ := p
    by_cases hk : k = u
    · simp [dict_lookup, hk] at h ⊢
      exact h
    · simp [dict_lookup, hk] at h ⊢
      exact ih h

theorem dict_lookup_append_self {acc : List (String × ItemRec)} {u : String}
    {r : ItemRec} (h : dict_lookup acc u = none) :
    dict_lookup (acc ++ [(u, r)]) u = some r := by
  induction acc with
  | nil => simp [dict_lookup]
  | cons p rest ih =>
    obtain ⟨k, v⟩ := p
    by_cases hk : k = u
    · simp [dict_lookup, hk] at h
    · simp [dict_lookup, hk] at h ⊢
      exact ih h

/-- A binding already present in the accumulator survives any page merge
unchanged: lines 200–204 only ever insert unseen keys. -/
theorem merge_items_preserves (sec : String) :
    ∀ (items : List (String × String)) (acc : List (String × ItemRec))
      (u : String) (r : ItemRec), dict_lookup acc u = some r →
      dict_lookup (merge_items sec items acc).1 u = some r := by
  intro items
  induction items with
  | nil =>
    intro acc u r h
    simpa [merge_items] using h
  | cons p rest ih =>
    intro acc u r h
    obtain ⟨t, u'⟩ := p
    by_cases hl : (dict_lookup acc u').isSome
    · simpa [merge_items, hl] using ih acc u r h
    · simpa [merge_items, hl] using ih _ u r (dict_lookup_append_left h)

/-- The merge only appends: the accumulator before the merge is a prefix of
the accumulator after it. -/
theorem merge_items_grows (sec : String) :
    ∀ (items : List (String × String)) (acc : List (String × ItemRec)),
      ∃ tail, (merge_items sec items acc).1 = acc ++ tail := by
  intro items
  induction items with
  | nil =>
    intro acc
    exact ⟨[], by simp [merge_items]⟩
  | cons p rest ih =>
    intro acc
    obtain ⟨t, u⟩ := p
    by_cases hl : (dict_lookup acc u).isSome
    · simpa [merge_items, hl] using ih acc
    · obtain ⟨tail, htail⟩ := ih (acc ++ [(u, ⟨sec, t, u⟩)])
      refine ⟨(u, ⟨sec, t, u⟩) :: tail, ?_⟩
      simp [merge_items, hl, htail]

/-- After merging a page, every URL of that page is a key of the
accumulator. -/
theorem merge_items_present (sec : String) :
    ∀ (items : List (String × String)) (acc : List (String × ItemRec))
      (t u : String), (t, u) ∈ items →
      (dict_lookup (merge_items sec items acc).1 u).isSome := by
  intro items
  induction items with
  | nil =>
    intro acc t u h
    simp at h
  | cons p rest ih =>
    intro acc t u h
    obtain ⟨t', u'⟩ := p
    rcases List.mem_cons.mp h with heq | hmem
    · obtain ⟨rfl, rfl⟩ : t = t' ∧ u = u' := by
        simpa [Prod.ext_iff] using heq
      by_cases hl : (dict_lookup acc u).isSome
      · obtain ⟨rv, hrv⟩ := Option.isSome_iff_exists.mp hl
        have hkeep := merge_items_preserves sec rest acc u rv hrv
        simp [merge_items, hl, hkeep]
      · have hnone : dict_lookup acc u = none :=
          Option.not_isSome_iff_eq_none.mp hl
        have hself : dict_lookup (acc ++ [(u, (⟨sec, t, u⟩ : ItemRec))]) u = some ⟨sec, t, u⟩ := dict_lookup_append_self hnone
        have hkeep := merge_items_preserves sec rest _ u _ hself
        simp [merge_items, hl, hkeep]
    · by_cases hl : (dict_lookup acc u').isSome
      · simpa [merge_items, hl] using ih acc t u hmem
      · simpa [merge_items, hl] using ih _ t u hmem

/-- Merging items whose URLs are all already keys changes nothing and counts
zero new records. -/
theorem merge_items_noop (sec : String) :
    ∀ (items : List (String × String)) (acc : List (String × ItemRec)),
      (∀ p ∈ items, (dict_lookup acc p.2).isSome) →
      merge_items sec items acc = (acc, 0) := by
  intro items
  induction items with
  | nil =>
    intro acc _
    simp [merge_items]
  | cons p rest ih =>
    intro acc h
    obtain ⟨t, u⟩ := p
    have hu : (dict_lookup acc u).isSome := by
      simpa using h (t, u) (List.mem_cons_self _ _)
    simpa [merge_items, hu] using ih acc (fun q hq => h q (List.mem_cons_of_mem _ hq))

/-! ### Lemmas about the traversal loop -/

theorem traverse_aux_preserves (sec : String) (fetch : Nat → PageFetch) :
    ∀ (fuel current : Nat) (acc : List (String × ItemRec)) (consec : Nat)
      (u : String) (r : ItemRec), dict_lookup acc u = some r →
      dict_lookup (traverse_aux sec fetch fuel current acc consec).acc u = some r := by
  intro fuel
  induction fuel with
  | zero =>
    intro current acc consec u r h
    simpa [traverse_aux] using h
  | succ n ih =>
    intro current acc consec u r h
    cases hfi : fetch_items (fetch current) with
    | none => simpa [traverse_aux, hfi] using h
    | some items =>
      have hm := merge_items_preserves sec items acc u r h
      by_cases h3 : 3 ≤ (if (merge_items sec items acc).2 = 0 then consec + 1 else 0)
      · simpa [traverse_aux, hfi, h3] using hm
      · simpa [traverse_aux, hfi, h3] using ih (current + 1) _ _ u r hm

theorem traverse_aux_requested_bound (sec : String) (fetch : Nat → PageFetch) :
    ∀ (fuel current : Nat) (acc : List (String × ItemRec)) (consec p : Nat),
      p ∈ (traverse_aux sec fetch fuel current acc consec).requested →
      current ≤ p ∧ p < current + fuel := by
  intro fuel
  induction fuel with
  | zero =>
    intro current acc consec p hp
    simp [traverse_aux] at hp
  | succ n ih =>
    intro current acc consec p hp
    cases hfi : fetch_items (fetch current) with
    | none =>
      simp [traverse_aux, hfi] at hp
      omega
    | some items =>
      by_cases h3 : 3 ≤ (if (merge_items sec items acc).2 = 0 then consec + 1 else 0)
      · simp [traverse_aux, hfi, h3] at hp
        omega
      · simp [traverse_aux, hfi, h3] at hp
        rcases hp with rfl | hp
        · omega
        · have := ih (current + 1) _ _ p hp
          omega

/-- The growth-bookkeeping and termination behaviour of one loop run,
starting from any admissible counter value: the recorded counters obey the
increment/reset law, every non-final step has a counter below 3, and the
run ends in `noGrowth` exactly when the counter of its last step hits 3. -/
theorem traverse_aux_trace_spec (sec : String) (fetch : Nat → PageFetch) :
    ∀ (fuel current : Nat) (acc : List (String × ItemRec)) (consec : Nat),
      consec < 3 →
      counterLawB consec (traverse_aux sec fetch fuel current acc consec).trace = true ∧
      (∀ s ∈ (traverse_aux sec fetch fuel current acc consec).trace.dropLast,
        s.consecAfter < 3) ∧
      ((traverse_aux sec fetch fuel current acc consec).stop = StopReason.noGrowth ↔
        ∃ s, (traverse_aux sec fetch fuel current acc consec).trace.getLast? = some s ∧
          s.consecAfter = 3) := by
  intro fuel
  induction fuel with
  | zero =>
    intro current acc consec hc
    refine ⟨rfl, by simp [traverse_aux], ?_⟩
    simp [traverse_aux]
  | succ n ih =>
    intro current acc consec hc
    cases hfi : fetch_items (fetch current) with
    | none =>
      refine ⟨by simp [traverse_aux, hfi, counterLawB], by simp [traverse_aux, hfi], ?_⟩
      simp [traverse_aux, hfi]
    | some items =>
      by_cases h3 : 3 ≤ (if (merge_items sec items acc).2 = 0 then consec + 1 else 0)
      · have hc3 : (if (merge_items sec items acc).2 = 0 then consec + 1 else 0) = 3 := by
          by_cases hz : (merge_items sec items acc).2 = 0
          · simp only [if_pos hz] at h3 ⊢
            omega
          · simp only [if_neg hz] at h3
            omega
        refine ⟨?_, ?_, ?_⟩
        · simp [traverse_aux, hfi, h3, counterLawB]
        · simp [traverse_aux, hfi, h3]
        · simp only [traverse_aux, hfi, h3, if_true]
          constructor
          · intro _
            exact ⟨⟨current, (merge_items sec items acc).2,
              if (merge_items sec items acc).2 = 0 then consec + 1 else 0⟩, by simp, hc3⟩
          · intro _
            trivial
      · have hlt : (if (merge_items sec items acc).2 = 0 then consec + 1 else 0) < 3 := by
          by_cases hz : (merge_items sec items acc).2 = 0
          · simp only [if_pos hz] at h3 ⊢
            omega
          · simp only [if_neg hz]
            omega
        obtain ⟨ih1, ih2, ih3⟩ := ih (current + 1) (merge_items sec items acc).1 _ hlt
        refine ⟨?_, ?_, ?_⟩
        · simp only [traverse_aux, hfi, h3, if_false, counterLawB]
          simp [ih1]
        · intro s hs
          simp only [traverse_aux, hfi, h3, if_false] at hs
          rcases htr : (traverse_aux sec fetch n (current + 1)
              (merge_items sec items acc).1
              (if (merge_items sec items acc).2 = 0 then consec + 1 else 0)).trace with
            _ | ⟨b, l⟩
          · rw [htr] at hs
            simp at hs
          · rw [htr] at hs
            rw [List.dropLast_cons₂] at hs
            rcases List.mem_cons.mp hs with rfl | hs
            · exact hlt
            · rw [← htr] at hs
              exact ih2 s hs
        · simp only [traverse_aux, hfi, h3, if_false]
          rcases htr : (traverse_aux sec fetch n (current + 1)
              (merge_items sec items acc).1
              (if (merge_items sec items acc).2 = 0 then consec + 1 else 0)).trace with
            _ | ⟨b, l⟩
          · rw [htr] at ih3
            simp at ih3
            simp [ih3, htr]
            omega
          · rw [htr] at ih3
            rw [List.getLast?_cons_cons]
            simpa using ih3

/-! ### Claim theorems for the traversal -/

/-- C2: For every crawl run, the traversal loop stops with normal completion
as soon as three consecutive page iterations each add zero new records to the
accumulator, even when the page ceiling has not yet been reached; the
no-growth counter increments on a zero-new-count iteration and resets to 0 on
any iteration that adds at least one new record.  Formally: the recorded
counters obey the increment/reset law starting from 0; every non-final
iteration has a counter below 3 (so the loop never continues past a third
consecutive no-growth page); and the run stops with `noGrowth` exactly when
the counter of its final iteration reaches 3. -/
theorem C2_noGrowth_termination (sec : String) (fetch : Nat → PageFetch)
    (items0 : List (String × String)) (hint : Option Nat) (cap : Nat) :
    counterLawB 0 (main_collect sec fetch items0 hint cap).trace = true ∧
    (∀ s ∈ (main_collect sec fetch items0 hint cap).trace.dropLast,
      s.consecAfter < 3) ∧
    ((main_collect sec fetch items0 hint cap).stop = StopReason.noGrowth ↔
      ∃ s, (main_collect sec fetch items0 hint cap).trace.getLast? = some s ∧
        s.consecAfter = 3) :=
  traverse_aux_trace_spec sec fetch (iter_ceiling hint cap - 1) 2
    (seed_items sec items0) 0 (by omega)

/-- A synthetic termination scenario: every page repeats the seed
record, the ceiling is 50. -/
def c2pages : Nat → PageFetch := fun _ => PageFetch.ok [("t", "u1")]

/-- Witness for C2: with pages 2–4 contributing zero new records and a
ceiling of 50, the counters are 1, 2, 3 on pages 2, 3, 4 and the run
stops there with `noGrowth` rather than at page 50. -/
theorem C2_noGrowth_termination_witness :
    (main_collect "national" c2pages [("t", "u1")] none 50).trace.map
        StepInfo.page = [2, 3, 4] ∧
    counterLawB 0 (main_collect "national" c2pages [("t", "u1")] none 50).trace = true ∧
    ((⟨2, 0, 1⟩ : StepInfo) ∈
        (main_collect "national" c2pages [("t", "u1")] none 50).trace.dropLast →
      (⟨2, 0, 1⟩ : StepInfo).consecAfter < 3) ∧
    (main_collect "national" c2pages [("t", "u1")] none 50).stop =
      StopReason.noGrowth := by
  refine ⟨by decide,
    (C2_noGrowth_termination "national" c2pages [("t", "u1")] none 50).1,
    (C2_noGrowth_termination "national" c2pages [("t", "u1")] none 50).2.1 ⟨2, 0, 1⟩,
    (C2_noGrowth_termination "national" c2pages [("t", "u1")] none 50).2.2.mpr
      ⟨⟨4, 0, 3⟩, by decide, rfl⟩⟩

/-- C3: The traversal never requests a page number greater than its
iteration ceiling, where the ceiling is the discovered page-count hint when
that hint is a number greater than 1 and the caller-supplied `--max-pages`
cap otherwise; every requested page lies between 2 and the ceiling. -/
theorem C3_ceiling_respected (sec : String) (fetch : Nat → PageFetch)
    (items0 : List (String × String)) (hint : Option Nat) (cap : Nat) :
    ∀ p ∈ (main_collect sec fetch items0 hint cap).requested,
      2 ≤ p ∧ p ≤ iter_ceiling hint cap := by
  intro p hp
  have h := traverse_aux_requested_bound sec fetch (iter_ceiling hint cap - 1) 2
    (seed_items sec items0) 0 p hp
  omega

/-- A fetch under which growth never stops: every page yields a fresh URL. -/
def c3pages : Nat → PageFetch := fun n => PageFetch.ok [("t", "u" ++ toString n)]

/-- Witness for C3: with a page-count hint of 5 (and default cap 999) the
requested pages are exactly 2–5; page 6 is never requested even though every
page still contributes a new record. -/
theorem C3_ceiling_respected_witness :
    (main_collect "national" c3pages [] (some 5) 999).requested = [2, 3, 4, 5] ∧
    6 ∉ (main_collect "national" c3pages [] (some 5) 999).requested := by
  refine ⟨by decide, fun h => ?_⟩
  have h6 := (C3_ceiling_respected "national" c3pages [] (some 5) 999 6 h).2
  exact absurd h6 (by decide)

/-- C9: merging the items extracted from any page content twice in
succession leaves the accumulator exactly as after merging once (in
particular the size and the key set agree), and the second merge counts zero
new records: insertion is a set union keyed by detail URL. -/
theorem C9_merge_idempotent (sec : String) (acc : List (String × ItemRec))
    (anchors : List (String × String)) :
    merge_items sec (extract_items anchors)
        (merge_items sec (extract_items anchors) acc).1 =
      ((merge_items sec (extract_items anchors) acc).1, 0) ∧
    (merge_items sec (extract_items anchors)
        (merge_items sec (extract_items anchors) acc).1).1.length =
      (merge_items sec (extract_items anchors) acc).1.length ∧
    (merge_items sec (extract_items anchors)
        (merge_items sec (extract_items anchors) acc).1).1.map Prod.fst =
      (merge_items sec (extract_items anchors) acc).1.map Prod.fst := by
  have h : merge_items sec (extract_items anchors)
      (merge_items sec (extract_items anchors) acc).1 =
      ((merge_items sec (extract_items anchors) acc).1, 0) := by
    refine merge_items_noop sec _ _ (fun p hp => ?_)
    exact merge_items_present sec _ acc p.1 p.2 (by simpa using hp)
  exact ⟨h, by rw [h], by rw [h]⟩

/-- C10: a detail URL inserted into the accumulator keeps its first-seen
record (title included) through every later merge — the per-page merge
preserves existing bindings, only appends new ones, and the whole remaining
traversal preserves existing bindings as well. -/
theorem C10_first_seen_immutable (sec : String) (items : List (String × String))
    (acc : List (String × ItemRec)) (u : String) (r : ItemRec)
    (fetch : Nat → PageFetch) (maxTry : Nat) :
    (dict_lookup acc u = some r →
      dict_lookup (merge_items sec items acc).1 u = some r) ∧
    (∃ tail, (merge_items sec items acc).1 = acc ++ tail) ∧
    (dict_lookup acc u = some r →
      dict_lookup (traverse sec fetch acc maxTry).acc u = some r) :=
  ⟨merge_items_preserves sec items acc u r,
   merge_items_grows sec items acc,
   fun h => traverse_aux_preserves sec fetch (maxTry - 1) 2 acc 0 u r h⟩

/-- Witness for C10: a record inserted with title `first` survives a merge
of the same URL with title `second`, both through one merge and through a
full traversal whose pages all carry the conflicting title. -/
theorem C10_first_seen_immutable_witness :
    dict_lookup (merge_items "s" [("second", "u1")]
        [("u1", ⟨"s", "first", "u1"⟩)]).1 "u1" = some ⟨"s", "first", "u1"⟩ ∧
    dict_lookup (traverse "s" (fun _ => PageFetch.ok [("second", "u1")])
        [("u1", ⟨"s", "first", "u1"⟩)] 9).acc "u1" = some ⟨"s", "first", "u1"⟩ := by
  refine ⟨(C10_first_seen_immutable "s" [("second", "u1")]
      [("u1", ⟨"s", "first", "u1"⟩)] "u1" ⟨"s", "first", "u1"⟩
      (fun _ => PageFetch.ok [("second", "u1")]) 9).1 (by decide), ?_⟩
  exact (C10_first_seen_immutable "s" [("second", "u1")]
      [("u1", ⟨"s", "first", "u1"⟩)] "u1" ⟨"s", "first", "u1"⟩
      (fun _ => PageFetch.ok [("second", "u1")]) 9).2.2 (by decide)

/-! ### Lemmas about the save path and the attempt loop -/

/-- Pointwise effect of the write-then-rename save: the final path holds the
body, the `.part` sibling is gone, everything else is untouched. -/
theorem atomic_save_eval (fs : FsT) (p : String) (body : List UInt8)
    (q : String) :
    atomic_save fs p body q =
      if q = p then some body else if q = p ++ ".part" then none else fs q := by
  by_cases hq : q = p
  · simp [atomic_save, apply_ops, save_ops, apply_op, fs_set, fs_del, hq]
  · by_cases hq2 : q = p ++ ".part"
    · simp [atomic_save, apply_ops, save_ops, apply_op, fs_set, fs_del, hq, hq2]
    · simp [atomic_save, apply_ops, save_ops, apply_op, fs_set, fs_del, hq, hq2]

theorem self_ne_append_part (s : String) : s ≠ s ++ ".part" := by
  intro e
  have h := congrArg String.length e
  rw [String.length_append] at h
  have h5 : (".part" : String).length = 5 := by decide
  omega

/-- `splitext` is a split of its argument: root and extension concatenate
back to the original string. -/
theorem splitext_append (s : String) : (splitext s).1 ++ (splitext s).2 = s := by
  obtain ⟨l⟩ := s
  show (splitext (String.mk l)).1 ++ (splitext (String.mk l)).2 = String.mk l
  unfold splitext
  cases h1 : lastIdxOf l '.' with
  | none =>
    simp only [h1]
    simp
  | some di =>
    simp only [h1]
    cases h2 : lastIdxOf l '/' with
    | none =>
      simp only [h2]
      by_cases h3 : (l.take di).any (fun x => x != '.')
      · rw [if_pos h3]
        show String.mk (l.take di ++ l.drop di) = String.mk l
        rw [List.take_append_drop]
      · rw [if_neg h3]
        simp
    | some si =>
      simp only [h2]
      by_cases h4 : si < di
      · rw [if_pos h4]
        by_cases h3 : ((l.drop (si + 1)).take (di - (si + 1))).any (fun x => x != '.')
        · rw [if_pos h3]
          show String.mk (l.take di ++ l.drop di) = String.mk l
          rw [List.take_append_drop]
        · rw [if_neg h3]
          simp
      · rw [if_neg h4]
        simp

/-- The attempt loop issues at most one request per remaining attempt. -/
theorem run_attempts_reqs_le (resp : Nat → Nat → HResponse)
    (outdir sec title uid : String) (tnum : Nat) :
    ∀ (rem att : Nat) (fs : FsT) (le : Option String),
      (run_attempts resp outdir sec title uid tnum att rem fs le).reqs.length ≤ rem := by
  intro rem
  induction rem with
  | zero =>
    intro att fs le
    simp [run_attempts]
  | succ n ih =>
    intro att fs le
    simp only [run_attempts]
    cases hcl : classify (resp tnum att) with
    | badStatus code =>
      simpa using Nat.succ_le_succ (ih (att + 1) _ _)
    | accept ext =>
      simp
    | seekError =>
      simpa using Nat.succ_le_succ (ih (att + 1) _ _)
    | notBinary =>
      simpa using Nat.succ_le_succ (ih (att + 1) _ _)

/-- The constantly-403 endpoint of the retry scenario. -/
def resp403 : Nat → Nat → HResponse := fun _ _ => ⟨403, "text/html", "", []⟩

/-- Against a constantly-403 endpoint the attempt loop never saves, ends
with `last_err = "status 403"`, sleeps `1 + attempt*1.5` seconds after every
attempt, and issues exactly one request per attempt. -/
theorem run_attempts_403 (outdir sec title uid : String) (tnum : Nat) :
    ∀ (rem att : Nat) (fs : FsT) (le : Option String),
      (run_attempts resp403 outdir sec title uid tnum att rem fs le).savedPath = none ∧
      (run_attempts resp403 outdir sec title uid tnum att rem fs le).lastErr =
        (if rem = 0 then le else some "status 403") ∧
      (run_attempts resp403 outdir sec title uid tnum att rem fs le).sleeps =
        (List.range' att rem).map (fun i => 1 + (i : ℚ) * (3 / 2)) ∧
      (run_attempts resp403 outdir sec title uid tnum att rem fs le).reqs.length = rem := by
  intro rem
  induction rem with
  | zero =>
    intro att fs le
    exact ⟨rfl, rfl, by simp [run_attempts, List.range'], rfl⟩
  | succ n ih =>
    intro att fs le
    have hcl : classify (resp403 tnum att) = Classified.badStatus 403 := rfl
    simp only [run_attempts, hcl]
    obtain ⟨ih1, ih2, ih3, ih4⟩ := ih (att + 1) _ _
    refine ⟨ih1, ?_, ?_, ?_⟩
    · rw [ih2]
      cases n with
      | zero =>
        simp
        rfl
      | succ m => simp
    · rw [ih3, List.range'_succ]
      simp
    · simp [ih4]

/-! ### Claim theorems for the downloader -/

/-- The record used by the concrete downloader scenarios: a detail URL
carrying resource id `abc123`, title `t`, section `s`. -/
def entryGood : Entry :=
  ⟨some "https://htsfwb.samr.gov.cn/View?id=abc123", none, none, some "t",
    none, some "s"⟩

/-- C4: `download_one` fails fast without any network request, sleep, or
filesystem change — `(False, "no_detail_url")` when the record has no truthy
detail-URL field, and `(False, "no_id")` when neither the query-string parse
nor the literal `id=` search yields a resource id. -/
theorem C4_fail_fast (resp : Nat → Nat → HResponse) (entry : Entry)
    (outdir : String) (types : List String) (retries : Nat) (fs0 : FsT) :
    (py_first_truthy [entry.detail_url, entry.file_url, entry.detail] = none →
      download_one resp entry outdir types retries fs0 =
        ⟨false, DlInfo.err "no_detail_url", fs0, [], [], []⟩) ∧
    (∀ durl,
      py_first_truthy [entry.detail_url, entry.file_url, entry.detail] = some durl →
      extract_uid durl = none →
      download_one resp entry outdir types retries fs0 =
        ⟨false, DlInfo.err "no_id", fs0, [], [], []⟩) := by
  constructor
  · intro h
    simp [download_one, h]
  · intro durl h1 h2
    simp [download_one, h1, h2]

/-- A record with no truthy detail-URL field (`file_url` present but empty,
which is falsy in Python). -/
def entryNoUrl : Entry := ⟨none, some "", none, some "t", none, some "s"⟩

/-- A record whose detail URL has a query string but no `id` parameter and
no literal `id=` substring. -/
def entryNoId : Entry :=
  ⟨some "https://htsfwb.samr.gov.cn/View?foo=1", none, none, some "t", none,
    some "s"⟩

/-- Witness for C4: both fail-fast outcomes at concrete records, with empty
request, sleep, and saved lists and an untouched filesystem. -/
theorem C4_fail_fast_witness :
    download_one resp403 entryNoUrl "out" ["pdf"] 2 fs_empty =
      ⟨false, DlInfo.err "no_detail_url", fs_empty, [], [], []⟩ ∧
    download_one resp403 entryNoId "out" ["pdf"] 2 fs_empty =
      ⟨false, DlInfo.err "no_id", fs_empty, [], [], []⟩ :=
  ⟨(C4_fail_fast resp403 entryNoUrl "out" ["pdf"] 2 fs_empty).1 rfl,
   (C4_fail_fast resp403 entryNoId "out" ["pdf"] 2 fs_empty).2
     "https://htsfwb.samr.gov.cn/View?foo=1" rfl rfl⟩

/-- C6: the attempt loop makes at most `retries + 1` tries for a desired
type (one request per try), and against a repeatedly-403 endpoint
`download_one` exhausts exactly `retries + 1` tries for the `pdf` type,
sleeps `1 + attempt*1.5` seconds after each, and reports
`fail_pdf:status 403`. -/
theorem C6_retry_budget_backoff :
    (∀ (resp : Nat → Nat → HResponse) (outdir sec title uid : String)
        (tnum rem att : Nat) (fs : FsT) (le : Option String),
      (run_attempts resp outdir sec title uid tnum att rem fs le).reqs.length ≤ rem) ∧
    (∀ (retries : Nat) (fs0 : FsT),
      (download_one resp403 entryGood "out" ["pdf"] retries fs0).info =
        DlInfo.err "fail_pdf:status 403" ∧
      (download_one resp403 entryGood "out" ["pdf"] retries fs0).reqs.length =
        retries + 1 ∧
      (download_one resp403 entryGood "out" ["pdf"] retries fs0).sleeps =
        (List.range (retries + 1)).map (fun i => 1 + (i : ℚ) * (3 / 2))) := by
  constructor
  · intro resp outdir sec title uid tnum rem att fs le
    exact run_attempts_reqs_le resp outdir sec title uid tnum rem att fs le
  · intro retries fs0
    have hred : download_one resp403 entryGood "out" ["pdf"] retries fs0 =
        types_loop resp403 "out" "s" "t" "abc123" retries ["pdf"] fs0 [] [] [] := rfl
    rw [hred]
    obtain ⟨h1, h2, h3, h4⟩ :=
      run_attempts_403 "out" "s" "t" "abc123" 2 (retries + 1) 0 fs0 none
    simp only [types_loop]
    rw [show (if pyLower "pdf" = "pdf" then 2 else 1) = 2 from rfl]
    rw [h1]
    simp only [Nat.succ_ne_zero, if_false] at h2
    refine ⟨by simp [h2], by simp [h4], ?_⟩
    rw [List.range_eq_range']
    simp [h3]

/-- Witness for C6 at `retries = 1`: two tries, sleeps of 1 and 2.5 seconds,
and the `fail_pdf:status 403` outcome. -/
theorem C6_retry_budget_backoff_witness :
    (download_one resp403 entryGood "out" ["pdf"] 1 fs_empty).info =
      DlInfo.err "fail_pdf:status 403" ∧
    (download_one resp403 entryGood "out" ["pdf"] 1 fs_empty).reqs.length = 2 ∧
    (download_one resp403 entryGood "out" ["pdf"] 1 fs_empty).sleeps =
      [1, 5 / 2] := by
  have h := (C6_retry_budget_backoff).2 1 fs_empty
  refine ⟨h.1, h.2.1, ?_⟩
  rw [h.2.2]
  norm_num [List.range_succ]

/-- A concrete `%PDF`-signature response with no headers: status 200, no
content type, no disposition, body bytes 25 50 44 46 2D 31 (`%PDF-1`). -/
def r5 : HResponse := ⟨200, "", "", [37, 80, 68, 70, 45, 49]⟩

/-- C5 is a code bug.  The spec says a 200 response with no content-type
header, no disposition filename, and a `%PDF` body prefix is accepted and
saved with extension `.pdf`, but the signature branch first calls
`r.raw.seek(0)` on the streaming urllib3 response, which raises
`io.UnsupportedOperation("seek")` before the `startswith` test; the
exception is caught at line 157 and retried, so the classifier ends every
such attempt in `seekError` — for a `%PDF` body and a non-PDF body alike —
and `download_one` exhausts its budget, returns
`(False, "fail_pdf:seek")`, and saves nothing. -/
theorem C5_signature_seek_bug :
    classify r5 = Classified.seekError ∧
    classify ⟨200, "", "", []⟩ = Classified.seekError ∧
    (download_one (fun _ _ => r5) entryGood "out" ["pdf"] 2 fs_empty).ok = false ∧
    (download_one (fun _ _ => r5) entryGood "out" ["pdf"] 2 fs_empty).info =
      DlInfo.err "fail_pdf:seek" ∧
    (download_one (fun _ _ => r5) entryGood "out" ["pdf"] 2 fs_empty).saved = [] ∧
    (download_one (fun _ _ => r5) entryGood "out" ["pdf"] 2 fs_empty).fs
      "out/s/t.pdf" = none := by
  refine ⟨by decide, by decide, by decide, by decide, by decide, by decide⟩

/-- The C1 counterexample endpoint: the pdf type code (2) always answers
403, while the word type code (1) would answer a perfectly acceptable
legacy-Word payload. -/
def respC1 : Nat → Nat → HResponse := fun tnum _ =>
  if tnum = 2 then ⟨403, "text/html", "", []⟩
  else ⟨200, "application/msword", "", [1]⟩

/-- Counterexample to C1 as stated: requesting `[pdf, word]` where every pdf
attempt gets 403, `download_one` returns `fail_pdf:status 403` after three
type-2 requests and never issues a single type-1 request — even though the
word response would have been accepted (`.doc`).  Processing does NOT
continue to the remaining entries of the desired-type list. -/
theorem C1_counterexample :
    (download_one respC1 entryGood "out" ["pdf", "word"] 2 fs_empty).info =
      DlInfo.err "fail_pdf:status 403" ∧
    (download_one respC1 entryGood "out" ["pdf", "word"] 2 fs_empty).reqs =
      [download_api "abc123" 2, download_api "abc123" 2, download_api "abc123" 2] ∧
    classify (respC1 1 0) = Classified.accept ".doc" := by
  refine ⟨by decide, by decide, by decide⟩

/-- The endpoint of the record-level scenario: pdf succeeds, word
always answers 403. -/
def respC1b : Nat → Nat → HResponse := fun tnum _ =>
  if tnum = 2 then ⟨200, "application/pdf", "", [9, 9]⟩ else ⟨403, "", "", []⟩

/-- C1 (amended): when every attempt for a requested type is exhausted
without acceptance, `download_one` immediately returns
`(False, fail_<type>:<last_error>)` without touching the remaining entries
of the desired-type list (its result does not depend on them); the overall
outcome is failure, and files saved for earlier successful types remain on
disk — concretely, `[pdf, word]` with pdf succeeding and word exhausting
retries reports `fail_word:status 403` while the pdf file is still present. -/
theorem C1_record_failure_amended :
    (∀ (resp : Nat → Nat → HResponse) (outdir sec title uid : String)
        (retries : Nat) (t : String) (rest rest' : List String) (fs : FsT)
        (sleeps : List ℚ) (reqs saved : List String),
      (run_attempts resp outdir sec title uid
          (if pyLower t = "pdf" then 2 else 1) 0 (retries + 1) fs none).savedPath =
        none →
      types_loop resp outdir sec title uid retries (t :: rest) fs sleeps reqs saved =
        types_loop resp outdir sec title uid retries (t :: rest') fs sleeps reqs saved ∧
      (types_loop resp outdir sec title uid retries (t :: rest) fs sleeps reqs saved).ok =
        false ∧
      (types_loop resp outdir sec title uid retries (t :: rest) fs sleeps reqs saved).info =
        DlInfo.err ("fail_" ++ t ++ ":" ++
          (run_attempts resp outdir sec title uid
            (if pyLower t = "pdf" then 2 else 1) 0 (retries + 1) fs none).lastErr.getD
              "None") ∧
      (types_loop resp outdir sec title uid retries (t :: rest) fs sleeps reqs saved).saved =
        saved) ∧
    ((download_one respC1b entryGood "out" ["pdf", "word"] 2 fs_empty).ok = false ∧
      (download_one respC1b entryGood "out" ["pdf", "word"] 2 fs_empty).info =
        DlInfo.err "fail_word:status 403" ∧
      (download_one respC1b entryGood "out" ["pdf", "word"] 2 fs_empty).saved =
        ["out/s/t.pdf"] ∧
      (download_one respC1b entryGood "out" ["pdf", "word"] 2 fs_empty).fs
        "out/s/t.pdf" = some [9, 9]) := by
  constructor
  · intro resp outdir sec title uid retries t rest rest' fs sleeps reqs saved h
    refine ⟨?_, ?_, ?_, ?_⟩ <;> simp [types_loop, h]
  · refine ⟨by decide, by decide, by decide, by decide⟩

/-- Witness for the amended C1: with the constantly-403 endpoint, swapping
the tail of the desired-type list does not change the outcome, and the
hypothesis of the theorem holds at this input. -/
theorem C1_record_failure_amended_witness :
    types_loop resp403 "out" "s" "t" "abc123" 2 ["pdf", "word"] fs_empty [] [] [] =
      types_loop resp403 "out" "s" "t" "abc123" 2 ["pdf", "docx"] fs_empty [] [] [] ∧
    (run_attempts resp403 "out" "s" "t" "abc123"
        (if pyLower "pdf" = "pdf" then 2 else 1) 0 3 fs_empty none).savedPath =
      none := by
  have h := (C1_record_failure_amended).1 resp403 "out" "s" "t" "abc123" 2 "pdf"
    ["word"] ["docx"] fs_empty [] [] [] (by decide)
  exact ⟨h.1, by decide⟩

/-- Filesystem for the C7 counterexample: both the plain title path and the
uid-disambiguated path already exist. -/
def fs7 : FsT := fun q =>
  if q = "out/s/t.pdf" then some [1]
  else if q = "out/s/t_abc123.pdf" then some [2] else none

def resp7 : Nat → Nat → HResponse := fun _ _ => ⟨200, "application/pdf", "", [3]⟩

/-- Counterexample to C7 as stated: the disambiguation is one-shot, so when
the uid-suffixed path also already exists (bytes `[2]`), the save targets it
and `os.replace` overwrites it with the new payload `[3]` — an existing file
at the final output path IS overwritten. -/
theorem C7_counterexample :
    fs7 "out/s/t_abc123.pdf" = some [2] ∧
    (download_one resp7 entryGood "out" ["pdf"] 2 fs7).saved =
      ["out/s/t_abc123.pdf"] ∧
    (download_one resp7 entryGood "out" ["pdf"] 2 fs7).fs "out/s/t_abc123.pdf" =
      some [3] := by
  refine ⟨by decide, by decide, by decide⟩

/-- C7 (amended): when the path built from the sanitized title and resolved
extension already exists, the filename is disambiguated once by appending
the resource id before the extension; provided the disambiguated path does
not itself already exist, saving overwrites no existing file, and two
records that sanitize to the same title produce two distinct files, the
second suffixed with its resource id. -/
theorem C7_no_overwrite_amended (fs : FsT) (save_dir stitle ext uid uid2 : String)
    (body bodyA bodyB : List UInt8) :
    (fs_exists fs (save_dir ++ "/" ++ (stitle ++ ext)) = true →
      resolve_outpath fs save_dir stitle ext uid =
        save_dir ++ "/" ++ (splitext (stitle ++ ext)).1 ++ "_" ++ uid ++
          (splitext (stitle ++ ext)).2) ∧
    (fs_exists fs (save_dir ++ "/" ++ (stitle ++ ext)) = false →
      resolve_outpath fs save_dir stitle ext uid = save_dir ++ "/" ++ (stitle ++ ext)) ∧
    (fs_exists fs (resolve_outpath fs save_dir stitle ext uid) = false →
      ∀ q, fs q ≠ none → q ≠ resolve_outpath fs save_dir stitle ext uid ++ ".part" →
        atomic_save fs (resolve_outpath fs save_dir stitle ext uid) body q = fs q) ∧
    (fs_exists fs (save_dir ++ "/" ++ (stitle ++ ext)) = false →
      fs_exists (atomic_save fs (save_dir ++ "/" ++ (stitle ++ ext)) bodyA)
          (resolve_outpath (atomic_save fs (save_dir ++ "/" ++ (stitle ++ ext)) bodyA)
            save_dir stitle ext uid2) = false →
      resolve_outpath (atomic_save fs (save_dir ++ "/" ++ (stitle ++ ext)) bodyA)
          save_dir stitle ext uid2 =
        save_dir ++ "/" ++ (splitext (stitle ++ ext)).1 ++ "_" ++ uid2 ++
          (splitext (stitle ++ ext)).2 ∧
      resolve_outpath (atomic_save fs (save_dir ++ "/" ++ (stitle ++ ext)) bodyA)
          save_dir stitle ext uid2 ≠ save_dir ++ "/" ++ (stitle ++ ext) ∧
      atomic_save (atomic_save fs (save_dir ++ "/" ++ (stitle ++ ext)) bodyA)
          (resolve_outpath (atomic_save fs (save_dir ++ "/" ++ (stitle ++ ext)) bodyA)
            save_dir stitle ext uid2) bodyB
          (resolve_outpath (atomic_save fs (save_dir ++ "/" ++ (stitle ++ ext)) bodyA)
            save_dir stitle ext uid2) = some bodyB ∧
      atomic_save (atomic_save fs (save_dir ++ "/" ++ (stitle ++ ext)) bodyA)
          (resolve_outpath (atomic_save fs (save_dir ++ "/" ++ (stitle ++ ext)) bodyA)
            save_dir stitle ext uid2) bodyB
          (save_dir ++ "/" ++ (stitle ++ ext)) = some bodyA) := by
  refine ⟨?_, ?_, ?_, ?_⟩
  · intro h
    simp [resolve_outpath, h]
  · intro h
    simp [resolve_outpath, h]
  · intro h q hq hq2
    have hnone : fs (resolve_outpath fs save_dir stitle ext uid) = none := by
      rcases hv : fs (resolve_outpath fs save_dir stitle ext uid) with _ | c
      · rfl
      · simp [fs_exists, hv] at h
    have hqr : q ≠ resolve_outpath fs save_dir stitle ext uid := by
      intro e
      exact hq (e ▸ hnone)
    rw [atomic_save_eval, if_neg hqr, if_neg hq2]
  · intro hA hB
    have hfs1p1 : atomic_save fs (save_dir ++ "/" ++ (stitle ++ ext)) bodyA
        (save_dir ++ "/" ++ (stitle ++ ext)) = some bodyA := by
      rw [atomic_save_eval]
      simp
    have hex1 : fs_exists (atomic_save fs (save_dir ++ "/" ++ (stitle ++ ext)) bodyA)
        (save_dir ++ "/" ++ (stitle ++ ext)) = true := by
      simp [fs_exists, hfs1p1]
    have ha : resolve_outpath (atomic_save fs (save_dir ++ "/" ++ (stitle ++ ext)) bodyA)
        save_dir stitle ext uid2 =
        save_dir ++ "/" ++ (splitext (stitle ++ ext)).1 ++ "_" ++ uid2 ++
          (splitext (stitle ++ ext)).2 := by
      simp [resolve_outpath, hex1]
    rw [ha] at hB
    have hne1 : save_dir ++ "/" ++ (stitle ++ ext) ≠
        save_dir ++ "/" ++ (splitext (stitle ++ ext)).1 ++ "_" ++ uid2 ++
          (splitext (stitle ++ ext)).2 := by
      intro e
      rw [← e] at hB
      rw [hex1] at hB
      simp at hB
    have hse : (splitext (stitle ++ ext)).1.length +
        (splitext (stitle ++ ext)).2.length = stitle.length + ext.length := by
      have h0 := congrArg String.length (splitext_append (stitle ++ ext))
      simp only [String.length_append] at h0
      exact h0
    have hne2 : save_dir ++ "/" ++ (stitle ++ ext) ≠
        (save_dir ++ "/" ++ (splitext (stitle ++ ext)).1 ++ "_" ++ uid2 ++
          (splitext (stitle ++ ext)).2) ++ ".part" := by
      intro e
      have hl := congrArg String.length e
      simp only [String.length_append] at hl
      have c1 : ("_" : String).length = 1 := rfl
      have c2 : (".part" : String).length = 5 := rfl
      rw [c1, c2] at hl
      omega
    refine ⟨ha, ?_, ?_, ?_⟩
    · rw [ha]
      exact fun e => hne1 e.symm
    · rw [ha, atomic_save_eval]
      simp
    · rw [ha, atomic_save_eval, if_neg hne1, if_neg hne2]
      exact hfs1p1

/-- Witness for the amended C7: on an empty filesystem, record `t`/`abc123`
saves to `out/s/t.pdf`; a second record with the same title and resource id
`zz9` is routed to the distinct path `out/s/t_zz9.pdf`, and after its save
both files are present with their own payloads. -/
theorem C7_no_overwrite_amended_witness :
    resolve_outpath fs_empty "out/s" "t" ".pdf" "abc123" = "out/s/t.pdf" ∧
    resolve_outpath (atomic_save fs_empty "out/s/t.pdf" [1]) "out/s" "t" ".pdf" "zz9" =
      "out/s/t_zz9.pdf" ∧
    atomic_save (atomic_save fs_empty "out/s/t.pdf" [1]) "out/s/t_zz9.pdf" [2]
      "out/s/t_zz9.pdf" = some [2] ∧
    atomic_save (atomic_save fs_empty "out/s/t.pdf" [1]) "out/s/t_zz9.pdf" [2]
      "out/s/t.pdf" = some [1] := by
  have h := C7_no_overwrite_amended fs_empty "out/s" "t" ".pdf" "abc123" "zz9"
    [0] [1] [2]
  have h2 := h.2.1 (by decide)
  have h4 := h.2.2.2 (by decide) (by decide)
  exact ⟨h2, h4.1, h4.2.2.1, h4.2.2.2⟩

/-- C8: persistence is atomic with respect to the final path.  The save is
the operation list `save_ops` (write the `.part` sibling, then rename); an
execution interrupted at the write (k = 0, any number of bytes landed) or
between the write and the rename (k = 1) leaves the final path exactly as it
was — only the `.part` sibling can hold partial data. -/
theorem C8_atomic_persistence (fs : FsT) (outpath : String) (body : List UInt8)
    (k keep : Nat) (hk : k ≤ 1) :
    run_interruptedAt fs (save_ops outpath body) k keep outpath = fs outpath ∧
    ∀ q, q ≠ outpath ++ ".part" →
      run_interruptedAt fs (save_ops outpath body) k keep q = fs q := by
  have hne := self_ne_append_part outpath
  match k, hk with
  | 0, _ =>
    constructor
    · show (if outpath = outpath ++ ".part" then some (body.take keep)
        else apply_ops fs [] outpath) = fs outpath
      rw [if_neg hne]
      rfl
    · intro q hq
      show (if q = outpath ++ ".part" then some (body.take keep)
        else apply_ops fs [] q) = fs q
      rw [if_neg hq]
      rfl
  | 1, _ =>
    constructor
    · show apply_ops fs [FsOp.write (outpath ++ ".part") body] outpath = fs outpath
      show (if outpath = outpath ++ ".part" then some body else fs outpath) = fs outpath
      rw [if_neg hne]
    · intro q hq
      show (if q = outpath ++ ".part" then some body else fs q) = fs q
      rw [if_neg hq]

/-- Filesystem for the C8 witness: one unrelated pre-existing file. -/
def fs8 : FsT := fun q => if q = "d/old.bin" then some [7] else none

/-- Witness for C8: interrupting the save of `d/f.pdf` during the `.part`
write (one byte landed) leaves both the final path and the unrelated file
exactly as before. -/
theorem C8_atomic_persistence_witness :
    run_interruptedAt fs8 (save_ops "d/f.pdf" [1, 2, 3]) 0 1 "d/f.pdf" =
      fs8 "d/f.pdf" ∧
    run_interruptedAt fs8 (save_ops "d/f.pdf" [1, 2, 3]) 0 1 "d/old.bin" =
      fs8 "d/old.bin" := by
  have h := C8_atomic_persistence fs8 "d/f.pdf" [1, 2, 3] 0 1 (by decide)
  exact ⟨h.1, h.2 "d/old.bin" (by decide)⟩

end Crawl
